import Mathlib

/-!
Shallow embedding of `src/webhdfs/request.c` (WebHDFS request layer).

C strings are modelled as `List Char` (`CStr`).  The growable buffer
(`buffer_open` / `buffer_clear` / `buffer_append` / `buffer_append_format`)
is not part of `src/`; per its contract it is modelled as the buffer's
current contents, with `clear` resetting the contents to empty and an
`append` that may fail on allocation (the failure is an explicit boolean
parameter wherever `request.c` inspects it).

The libcurl engine is external; it is modelled by a `CurlEnv` describing
what the engine does on each call (init success, bytes delivered to the
write callback per transfer, redirect URL, error codes, polls of the read
callback), and `webhdfs_req_exec` is embedded as a function that threads
the request state through the same sequence of curl calls the C source
makes, emitting a `CurlEv` trace of the engine-visible operations.
-/

abbrev CStr := List Char

/-- Coerce a Lean string literal to the `List Char` model of C strings. -/
def str (s : String) : CStr := s.data

/-- Model of `webhdfs_conf_t` (the fields `request.c` reads). -/
structure WebhdfsConf where
  use_ssl : Bool
  hdfs_host : CStr
  webhdfs_port : Nat
  hdfs_user : Option CStr
  token : Option CStr

/-- Model of `webhdfs_req_t`: the dual-purpose buffer, the optional upload
producer (`upload` plus `upload_data`, folded into one optional function
from the poll index to the produced chunk), and the response code. -/
structure WebhdfsReq where
  buffer : CStr
  upload : Option (Nat → CStr)
  rcode : Int

/-- `webhdfs_req_open`: builds
`<scheme>://<host>:<port>/webhdfs/v1/<path+1>?[user.name=<u>&][delegation=<t>&]`
into the request buffer.  The C source passes `path + 1` (unconditionally
skipping the first character) when `path != NULL`, and `""` otherwise.
Allocation is assumed to succeed (`r` stays 0); the claim under test is
about the URL text. -/
def webhdfs_req_open (conf : WebhdfsConf) (path : Option CStr) : WebhdfsReq :=
  let pathArg : CStr := match path with
    | some p => p.drop 1
    | none => []
  let url : CStr :=
    (if conf.use_ssl then str "https" else str "http") ++ str "://" ++
      conf.hdfs_host ++ str ":" ++ (toString conf.webhdfs_port).data ++
      str "/webhdfs/v1/" ++ pathArg ++ str "?" ++
    (match conf.hdfs_user with
      | some u => str "user.name=" ++ u ++ str "&"
      | none => []) ++
    (match conf.token with
      | some t => str "delegation=" ++ t ++ str "&"
      | none => [])
  { buffer := url, upload := none, rcode := 0 }

/-- The URL format of spec §4.1, written from the spec's words:
`<scheme>://<host>:<port>/webhdfs/v1/<path-without-leading-slash>?`
`[user.name=<user>&][delegation=<token>&]`, scheme chosen by the TLS flag. -/
def specBuiltURL (ssl : Bool) (host : CStr) (port : Nat) (strippedPath : CStr)
    (user token : Option CStr) : CStr :=
  (if ssl then str "https" else str "http") ++ str "://" ++ host ++ str ":" ++
    (toString port).data ++ str "/webhdfs/v1/" ++ strippedPath ++ str "?" ++
  (match user with
    | some u => str "user.name=" ++ u ++ str "&"
    | none => []) ++
  (match token with
    | some t => str "delegation=" ++ t ++ str "&"
    | none => [])

/-- `webhdfs_req_set_args`: appends formatted text to the buffer.  The C
source initialises `int r = 0`, calls `buffer_append_vformat` WITHOUT
capturing its return value, and returns `r`.  `appendOk` models whether the
buffer growth succeeded; the returned `Int` is the function's return value. -/
def webhdfs_req_set_args (req : WebhdfsReq) (text : CStr) (appendOk : Bool) :
    WebhdfsReq × Int :=
  let req' := if appendOk then { req with buffer := req.buffer ++ text } else req
  (req', 0)

/-- `__webhdfs_req_write`, the inbound (download) adapter:
`n = size * nitems`; on append failure returns 0, otherwise returns `n`.
`chunk` is the `n` bytes behind `ptr`; `appendOk` models the
`buffer_append` allocation outcome. -/
def webhdfs_req_write (size nitems : Nat) (chunk : CStr) (req : WebhdfsReq)
    (appendOk : Bool) : WebhdfsReq × Nat :=
  let n := size * nitems
  if appendOk then ({ req with buffer := req.buffer ++ chunk }, n)
  else (req, 0)

/-- `__webhdfs_req_read`, the outbound (upload) adapter: returns 0 when no
upload capability is bound, otherwise delegates to the bound producer
(`i` is the poll index; the producer returns the chunk it filled, whose
length is the C return value). -/
def webhdfs_req_read (req : WebhdfsReq) (i : Nat) : Nat :=
  match req.upload with
  | none => 0
  | some f => (f i).length

/-- `webhdfs_req_json_response`: returns NULL on an empty buffer; otherwise
parses and, on parse failure (`parse buf = (none, e)` where `e` is the
human-readable error the parser wrote), prints `response-parse: <e>\n` to
stderr and still returns NULL.  First component: the returned document;
second component: the stderr diagnostic emitted by this call. -/
def webhdfs_req_json_response {J : Type} (parse : CStr → Option J × CStr)
    (buf : CStr) : Option J × CStr :=
  if buf.length = 0 then (none, [])
  else
    match parse buf with
    | (none, e) => (none, str "response-parse: " ++ e ++ ['\n'])
    | (some node, _) => (some node, [])

/-- Substring containment test: does `needle` occur contiguously in `hay`? -/
def hasSub (needle hay : CStr) : Bool :=
  (List.range (hay.length + 1)).any (fun i => needle.isPrefixOf (hay.drop i))

/-- The `type` argument of `webhdfs_req_exec`
(`WEBHDFS_REQ_GET/PUT/POST/DELETE`). -/
inductive ReqType where
  | get
  | put
  | post
  | delete
deriving DecidableEq

/-- The HTTP method string `webhdfs_req_exec` configures on the handle
(GET via `CURLOPT_HTTPGET`, the rest via `CURLOPT_CUSTOMREQUEST`). -/
def methodOf : ReqType → CStr
  | .get => str "GET"
  | .put => str "PUT"
  | .post => str "POST"
  | .delete => str "DELETE"

/-- Engine-visible operations performed by `webhdfs_req_exec`, in order. -/
inductive CurlEv where
  | setUrl (u : CStr)
  | setFollow (b : Bool)
  | setMethod (m : CStr)
  | clearBuf
  | performStart (url : CStr)
  | writeCb (chunk : CStr)
  | readCb (url : CStr) (produced : Nat)
  | getRedirect (u : CStr)
  | setChunkedHeader
  | bindRead
  | getRespCode (c : Int)
deriving DecidableEq

/-- Behaviour of the external curl engine during one `webhdfs_req_exec`
call: whether `curl_easy_init` succeeds, the chunks the engine hands to the
write callback during the first-phase and the terminal transfer, the
`CURLINFO_REDIRECT_URL` it reports, the `CURLcode` of each perform
(0 = `CURLE_OK`), how many times it polls a bound read callback during the
terminal transfer, the final response code, whether the 512-byte `malloc`
for the error string succeeds, and `curl_easy_strerror`. -/
structure CurlEnv where
  initOk : Bool
  phase1Err : Nat
  phase1Chunks : List CStr
  redirectUrl : CStr
  termErr : Nat
  termChunks : List CStr
  readCalls : Nat
  respCode : Int
  mallocOk : Bool
  strErr : Nat → CStr

/-- Result of `webhdfs_req_exec`: the request state on return, the C return
value (`err != 0`), the string stored through the `error` out-parameter
(`none` = never set / malloc failed), and the trace of engine operations. -/
structure ExecResult where
  req : WebhdfsReq
  ret : Nat
  error : Option CStr
  trace : List CurlEv

/-- Deliver `chunks` to the inbound adapter `__webhdfs_req_write` in order
(each chunk as one call with `size = 1`, `nitems = length`); buffer appends
succeed. -/
def runWrites (req : WebhdfsReq) (chunks : List CStr) : WebhdfsReq :=
  chunks.foldl (fun r c => (webhdfs_req_write 1 c.length c r true).1) req

/-- The error-string formatting of `webhdfs_req_exec` on a failed terminal
perform: `*error = malloc(512)` and, when that succeeds,
`snprintf(*error, 512, "%s (url: %s)", curl_easy_strerror(err),
req->buffer.blob)` — `req->buffer.blob` being the request buffer at failure
time (it was cleared before the terminal perform and holds response bytes),
truncated by `snprintf` to 511 characters. -/
def mkError (env : CurlEnv) (bufAtFailure : CStr) : Option CStr :=
  if env.termErr ≠ 0 then
    if env.mallocOk then
      some ((env.strErr env.termErr ++ str " (url: " ++ bufAtFailure ++ str ")").take 511)
    else none
  else none

/-- `webhdfs_req_exec` on the no-upload path (`req->upload == NULL`):
set URL from the buffer, clear the buffer, follow-redirects on, set the
method, clear again, perform once (the terminal transfer, response chunks
appended via the write adapter), format the error on failure, read the
response code. -/
def execNoUpload (env : CurlEnv) (req : WebhdfsReq) (ty : ReqType) : ExecResult :=
  let origUrl := req.buffer
  let reqT := runWrites { req with buffer := [] } env.termChunks
  { req := { reqT with rcode := env.respCode }
    ret := if env.termErr ≠ 0 then 1 else 0
    error := mkError env reqT.buffer
    trace :=
      [CurlEv.setUrl origUrl, CurlEv.clearBuf, CurlEv.setFollow true,
       CurlEv.setMethod (methodOf ty), CurlEv.clearBuf,
       CurlEv.performStart origUrl] ++
      env.termChunks.map CurlEv.writeCb ++
      [CurlEv.getRespCode env.respCode] }

/-- `webhdfs_req_exec` on the upload path (`req->upload != NULL`):
set URL, clear, follow-redirects off, set method, then the two-phase dance:
perform against the namenode URL with no body (no read callback is bound;
its error is only printed to stderr), fetch `CURLINFO_REDIRECT_URL`,
re-target the handle to it, add the `Transfer-Encoding: chunked` header,
bind the read callback, clear the buffer, perform the terminal transfer
(read-callback polls then response chunks), format the error on failure,
read the response code. -/
def execUpload (env : CurlEnv) (req : WebhdfsReq) (ty : ReqType) : ExecResult :=
  let origUrl := req.buffer
  let req1 := runWrites { req with buffer := [] } env.phase1Chunks
  let req3 : WebhdfsReq := { req1 with buffer := [] }
  let reqT := runWrites req3 env.termChunks
  { req := { reqT with rcode := env.respCode }
    ret := if env.termErr ≠ 0 then 1 else 0
    error := mkError env reqT.buffer
    trace :=
      [CurlEv.setUrl origUrl, CurlEv.clearBuf, CurlEv.setFollow false,
       CurlEv.setMethod (methodOf ty), CurlEv.performStart origUrl] ++
      env.phase1Chunks.map CurlEv.writeCb ++
      [CurlEv.getRedirect env.redirectUrl, CurlEv.setUrl env.redirectUrl,
       CurlEv.setChunkedHeader, CurlEv.bindRead, CurlEv.clearBuf,
       CurlEv.performStart env.redirectUrl] ++
      (List.range env.readCalls).map
        (fun i => CurlEv.readCb env.redirectUrl (webhdfs_req_read req3 i)) ++
      env.termChunks.map CurlEv.writeCb ++
      [CurlEv.getRespCode env.respCode] }

/-- `webhdfs_req_exec`: returns 1 immediately (error string untouched, no
engine activity) when `curl_easy_init` fails; otherwise runs the
no-upload or the two-phase upload path according to `req->upload`. -/
def webhdfs_req_exec (env : CurlEnv) (req : WebhdfsReq) (ty : ReqType) : ExecResult :=
  if env.initOk then
    match req.upload with
    | none => execNoUpload env req ty
    | some _ => execUpload env req ty
  else { req := req, ret := 1, error := none, trace := [] }

/-! Concrete fixtures for witnesses and counterexamples. -/

/-- A download-style request (no upload capability bound). -/
def reqGetFix : WebhdfsReq :=
  { buffer := str "http://nn:50070/webhdfs/v1/f?op=GETFILESTATUS&",
    upload := none, rcode := 0 }

/-- An upload-style request (producer yields one 4-byte chunk per poll). -/
def reqPutFix : WebhdfsReq :=
  { buffer := str "http://nn:50070/webhdfs/v1/f?op=CREATE&",
    upload := some (fun _ => str "data"), rcode := 0 }

/-- An engine whose `curl_easy_init` fails. -/
def envInitFail : CurlEnv :=
  { initOk := false, phase1Err := 0, phase1Chunks := [], redirectUrl := [],
    termErr := 0, termChunks := [], readCalls := 0, respCode := 0,
    mallocOk := true, strErr := fun _ => [] }

/-- A successful engine run: redirect to a datanode, two read-callback
polls, a one-chunk response body, status 201. -/
def envOkFix : CurlEnv :=
  { initOk := true, phase1Err := 0, phase1Chunks := [str "ph1"],
    redirectUrl := str "http://dn1:50075/x", termErr := 0,
    termChunks := [str "\x7b\x7d"], readCalls := 2, respCode := 201,
    mallocOk := true, strErr := fun _ => [] }

/-- An engine whose terminal perform fails with error code 7
(`curl_easy_strerror` says "connection refused") after delivering no
response bytes; the 512-byte malloc succeeds. -/
def envTermFail : CurlEnv :=
  { initOk := true, phase1Err := 0, phase1Chunks := [], redirectUrl := str "http://dn1:50075/x",
    termErr := 7, termChunks := [], readCalls := 0, respCode := 0,
    mallocOk := true, strErr := fun _ => str "connection refused" }

/-! Theorems. -/

/-- The inbound adapter with always-succeeding appends just concatenates
the delivered chunks onto the buffer. -/
theorem runWrites_buffer (cs : List CStr) (req : WebhdfsReq) :
    runWrites req cs = { req with buffer := req.buffer ++ cs.flatten } := by
  induction cs generalizing req with
  | nil => simp [runWrites]
  | cons c cs ih =>
      have h1 : runWrites req (c :: cs) =
          runWrites { req with buffer := req.buffer ++ c } cs := by
        simp [runWrites, webhdfs_req_write]
      rw [h1, ih]
      simp

/-- C2: for every configuration and every path beginning with `/`,
`webhdfs_req_open` builds exactly the URL of spec §4.1:
`<scheme>://<host>:<port>/webhdfs/v1/<path-minus-leading-slash>?` followed
by `user.name=<user>&` when a user is configured and `delegation=<token>&`
when a token is configured, with scheme `https` iff the TLS flag is set. -/
theorem webhdfs_req_open_builds_spec_url (conf : WebhdfsConf) (cs : CStr) :
    (webhdfs_req_open conf (some ('/' :: cs))).buffer =
      specBuiltURL conf.use_ssl conf.hdfs_host conf.webhdfs_port cs
        conf.hdfs_user conf.token := rfl

/-- C5 (code bug): `webhdfs_req_set_args` initialises `r = 0`, discards the
return value of `buffer_append_vformat`, and returns `r`; hence even when
buffer growth fails (`appendOk = false`) it returns 0 (success), not an
error signal. -/
theorem webhdfs_req_set_args_ignores_append_failure (req : WebhdfsReq) (text : CStr) :
    (webhdfs_req_set_args req text false).2 = 0 ∧
      (webhdfs_req_set_args req text false).1 = req :=
  ⟨rfl, rfl⟩

/-- C8: the inbound adapter returns exactly `n = size * nitems` (the full
count) when the buffer append succeeds, extending the buffer by the chunk,
and returns 0 (abort) when the append fails, leaving the buffer unchanged. -/
theorem webhdfs_req_write_accept_or_abort (size nitems : Nat) (chunk : CStr)
    (req : WebhdfsReq) (h : chunk.length = size * nitems) :
    webhdfs_req_write size nitems chunk req true =
      ({ req with buffer := req.buffer ++ chunk }, chunk.length) ∧
    webhdfs_req_write size nitems chunk req false = (req, 0) := by
  constructor
  · simp [webhdfs_req_write, h]
  · simp [webhdfs_req_write]

/-- C8 witness: a 6-byte chunk delivered as `size = 2`, `nitems = 3`. -/
theorem webhdfs_req_write_accept_or_abort_witness :
    webhdfs_req_write 2 3 (str "abcdef") reqGetFix true =
      ({ reqGetFix with buffer := reqGetFix.buffer ++ str "abcdef" },
        (str "abcdef").length) ∧
    webhdfs_req_write 2 3 (str "abcdef") reqGetFix false = (reqGetFix, 0) :=
  webhdfs_req_write_accept_or_abort 2 3 (str "abcdef") reqGetFix (by decide)

/-- C7: decoding an empty buffer yields no document (and no diagnostic);
decoding a non-empty buffer the parser rejects yields no document plus the
non-empty stderr diagnostic `response-parse: <parser error>\n`; the decoder
is a total function, so no error propagates and nothing aborts. -/
theorem webhdfs_req_json_response_degrades {J : Type}
    (parse : CStr → Option J × CStr) (buf e : CStr)
    (hbuf : buf ≠ []) (hp : parse buf = (none, e)) :
    webhdfs_req_json_response parse [] = (none, []) ∧
    webhdfs_req_json_response parse buf =
      (none, str "response-parse: " ++ e ++ ['\n']) ∧
    (webhdfs_req_json_response parse buf).2 ≠ [] := by
  have hlen : ¬ buf.length = 0 := by simpa [List.length_eq_zero] using hbuf
  refine ⟨rfl, ?_, ?_⟩
  · simp [webhdfs_req_json_response, hlen, hp]
  · simp [webhdfs_req_json_response, hlen, hp, str]

/-- C7 witness: a malformed buffer `{oops` with a parser that reports
`bad token`. -/
theorem webhdfs_req_json_response_degrades_witness :
    webhdfs_req_json_response (fun _ => ((none : Option Unit), str "bad token")) [] =
      (none, []) ∧
    webhdfs_req_json_response (fun _ => ((none : Option Unit), str "bad token"))
        (str "\x7boops") =
      (none, str "response-parse: " ++ str "bad token" ++ ['\n']) ∧
    (webhdfs_req_json_response (fun _ => ((none : Option Unit), str "bad token"))
        (str "\x7boops")).2 ≠ [] :=
  webhdfs_req_json_response_degrades
    (fun _ => ((none : Option Unit), str "bad token"))
    (str "\x7boops") (str "bad token") (by decide) rfl

/-- C9: when `curl_easy_init` fails, `webhdfs_req_exec` returns error value
1 at once with the request untouched, the error string never set, and an
empty engine trace — no network activity, and neither the inbound nor the
outbound callback is ever invoked. -/
theorem exec_init_fail_no_activity (env : CurlEnv) (req : WebhdfsReq)
    (ty : ReqType) (h : env.initOk = false) :
    webhdfs_req_exec env req ty =
      { req := req, ret := 1, error := none, trace := [] } := by
  simp [webhdfs_req_exec, h]

/-- C9 witness: the failing-init engine on a concrete GET request. -/
theorem exec_init_fail_no_activity_witness :
    webhdfs_req_exec envInitFail reqGetFix .get =
      { req := reqGetFix, ret := 1, error := none, trace := [] } :=
  exec_init_fail_no_activity envInitFail reqGetFix .get rfl

/-- C6: the engine trace contains `setFollow b` exactly when `b` is the
value of `req->upload == NULL`: follow-redirects is enabled iff no upload
capability is bound. -/
theorem exec_follow_iff_no_upload (env : CurlEnv) (req : WebhdfsReq)
    (ty : ReqType) (b : Bool) (h : env.initOk = true) :
    (CurlEv.setFollow b ∈ (webhdfs_req_exec env req ty).trace ↔
      b = req.upload.isNone) := by
  cases hu : req.upload with
  | none => simp [webhdfs_req_exec, h, hu, execNoUpload]
  | some f => simp [webhdfs_req_exec, h, hu, execUpload]

/-- C6 witness: a GET request (no upload) gets `setFollow true`. -/
theorem exec_follow_iff_no_upload_witness :
    CurlEv.setFollow true ∈ (webhdfs_req_exec envOkFix reqGetFix .get).trace ↔
      true = reqGetFix.upload.isNone :=
  exec_follow_iff_no_upload envOkFix reqGetFix .get true rfl

/-- The engine trace of an upload execution, written out: configuration,
first-phase perform against the original URL, redirect retrieval,
re-targeting, header and read-callback binding, buffer clear, terminal
perform against the redirect URL with its read-callback polls and response
chunks, response-code retrieval. -/
theorem exec_upload_trace_eq (env : CurlEnv) (req : WebhdfsReq) (ty : ReqType)
    (f : Nat → CStr) (hu : req.upload = some f) (h : env.initOk = true) :
    (webhdfs_req_exec env req ty).trace =
      [CurlEv.setUrl req.buffer, CurlEv.clearBuf, CurlEv.setFollow false,
       CurlEv.setMethod (methodOf ty), CurlEv.performStart req.buffer] ++
      env.phase1Chunks.map CurlEv.writeCb ++
      [CurlEv.getRedirect env.redirectUrl, CurlEv.setUrl env.redirectUrl,
       CurlEv.setChunkedHeader, CurlEv.bindRead, CurlEv.clearBuf,
       CurlEv.performStart env.redirectUrl] ++
      (List.range env.readCalls).map
        (fun i => CurlEv.readCb env.redirectUrl (f i).length) ++
      env.termChunks.map CurlEv.writeCb ++
      [CurlEv.getRespCode env.respCode] := by
  simp [webhdfs_req_exec, h, hu, execUpload, runWrites_buffer, webhdfs_req_read]

/-- C10: after an upload execution the request buffer holds exactly the
concatenation of the chunks delivered during the terminal transfer — the
first-phase response bytes are gone — and the trace shows the buffer clear
immediately before the terminal perform begins. -/
theorem exec_upload_response_is_terminal_only (env : CurlEnv) (req : WebhdfsReq)
    (ty : ReqType) (f : Nat → CStr) (hu : req.upload = some f)
    (h : env.initOk = true) :
    (webhdfs_req_exec env req ty).req.buffer = env.termChunks.flatten ∧
    ∃ t₁ t₂, (webhdfs_req_exec env req ty).trace =
      t₁ ++ CurlEv.clearBuf :: CurlEv.performStart env.redirectUrl :: t₂ := by
  constructor
  · simp [webhdfs_req_exec, h, hu, execUpload, runWrites_buffer]
  · refine ⟨[CurlEv.setUrl req.buffer, CurlEv.clearBuf, CurlEv.setFollow false,
        CurlEv.setMethod (methodOf ty), CurlEv.performStart req.buffer] ++
        env.phase1Chunks.map CurlEv.writeCb ++
        [CurlEv.getRedirect env.redirectUrl, CurlEv.setUrl env.redirectUrl,
         CurlEv.setChunkedHeader, CurlEv.bindRead],
      (List.range env.readCalls).map
        (fun i => CurlEv.readCb env.redirectUrl (f i).length) ++
      env.termChunks.map CurlEv.writeCb ++
      [CurlEv.getRespCode env.respCode], ?_⟩
    rw [exec_upload_trace_eq env req ty f hu h]
    simp

/-- C10 witness: the successful upload run; first-phase chunk `ph1`
vanishes, the buffer ends as `{}`. -/
theorem exec_upload_response_is_terminal_only_witness :
    (webhdfs_req_exec envOkFix reqPutFix .put).req.buffer =
      envOkFix.termChunks.flatten ∧
    ∃ t₁ t₂, (webhdfs_req_exec envOkFix reqPutFix .put).trace =
      t₁ ++ CurlEv.clearBuf :: CurlEv.performStart envOkFix.redirectUrl :: t₂ :=
  exec_upload_response_is_terminal_only envOkFix reqPutFix .put
    (fun _ => str "data") rfl rfl

/-- C1: in every upload execution the trace splits into a prefix holding
the first-phase perform (against the original namenode URL) and the
redirect retrieval but no read-callback invocation, and a suffix in which
every read-callback invocation targets the redirect URL; consequently,
whenever the redirect URL differs from the original URL, the outbound
adapter is never invoked against the original URL. -/
theorem exec_upload_read_after_redirect (env : CurlEnv) (req : WebhdfsReq)
    (ty : ReqType) (f : Nat → CStr) (hu : req.upload = some f)
    (h : env.initOk = true) :
    (∃ t₁ t₂, (webhdfs_req_exec env req ty).trace = t₁ ++ t₂ ∧
      CurlEv.performStart req.buffer ∈ t₁ ∧
      CurlEv.getRedirect env.redirectUrl ∈ t₁ ∧
      (∀ u p, CurlEv.readCb u p ∉ t₁) ∧
      (∀ u p, CurlEv.readCb u p ∈ t₂ → u = env.redirectUrl)) ∧
    (env.redirectUrl ≠ req.buffer →
      ∀ p, CurlEv.readCb req.buffer p ∉ (webhdfs_req_exec env req ty).trace) := by
  rw [exec_upload_trace_eq env req ty f hu h]
  constructor
  · refine ⟨[CurlEv.setUrl req.buffer, CurlEv.clearBuf, CurlEv.setFollow false,
        CurlEv.setMethod (methodOf ty), CurlEv.performStart req.buffer] ++
        env.phase1Chunks.map CurlEv.writeCb ++
        [CurlEv.getRedirect env.redirectUrl, CurlEv.setUrl env.redirectUrl,
         CurlEv.setChunkedHeader, CurlEv.bindRead, CurlEv.clearBuf],
      [CurlEv.performStart env.redirectUrl] ++
      (List.range env.readCalls).map
        (fun i => CurlEv.readCb env.redirectUrl (f i).length) ++
      env.termChunks.map CurlEv.writeCb ++
      [CurlEv.getRespCode env.respCode], ?_, ?_, ?_, ?_, ?_⟩
    · simp
    · simp
    · simp
    · intro u p hm
      simp at hm
    · intro u p hm
      rw [List.mem_append, List.mem_append, List.mem_append] at hm
      rcases hm with ((hm | hm) | hm) | hm
      · simp at hm
      · obtain ⟨i, hi, hEq⟩ := List.mem_map.mp hm
        injection hEq with e1 e2
        exact e1.symm
      · obtain ⟨c, hc, hEq⟩ := List.mem_map.mp hm
        simp at hEq
      · simp at hm
  · intro hne p hm
    rw [List.mem_append, List.mem_append, List.mem_append, List.mem_append,
      List.mem_append] at hm
    rcases hm with ((((hm | hm) | hm) | hm) | hm) | hm
    · simp at hm
    · obtain ⟨c, hc, hEq⟩ := List.mem_map.mp hm
      simp at hEq
    · simp at hm
    · obtain ⟨i, hi, hEq⟩ := List.mem_map.mp hm
      injection hEq with e1 e2
      exact hne e1
    · obtain ⟨c, hc, hEq⟩ := List.mem_map.mp hm
      simp at hEq
    · simp at hm

/-- C1 witness: the successful upload run against the datanode redirect. -/
theorem exec_upload_read_after_redirect_witness :
    (∃ t₁ t₂, (webhdfs_req_exec envOkFix reqPutFix .put).trace = t₁ ++ t₂ ∧
      CurlEv.performStart reqPutFix.buffer ∈ t₁ ∧
      CurlEv.getRedirect envOkFix.redirectUrl ∈ t₁ ∧
      (∀ u p, CurlEv.readCb u p ∉ t₁) ∧
      (∀ u p, CurlEv.readCb u p ∈ t₂ → u = envOkFix.redirectUrl)) ∧
    (envOkFix.redirectUrl ≠ reqPutFix.buffer →
      ∀ p, CurlEv.readCb reqPutFix.buffer p ∉
        (webhdfs_req_exec envOkFix reqPutFix .put).trace) :=
  exec_upload_read_after_redirect envOkFix reqPutFix .put
    (fun _ => str "data") rfl rfl

/-- C4 counterexample: when `curl_easy_init` fails, `webhdfs_req_exec`
returns the error value 1 yet never sets the `error` out-parameter — an
error return with no descriptive error string. -/
theorem exec_error_return_can_be_silent :
    (webhdfs_req_exec envInitFail reqPutFix .put).ret = 1 ∧
    (webhdfs_req_exec envInitFail reqPutFix .put).error = none := by
  constructor
  · rfl
  · rfl

/-- On a failed terminal perform with a successful malloc, the formatted
error string exists and is non-empty (it always holds at least the
`" (url: "` literal). -/
theorem mkError_some_ne_nil (env : CurlEnv) (buf : CStr)
    (ht : env.termErr ≠ 0) (hm : env.mallocOk = true) :
    ∃ e, mkError env buf = some e ∧ e ≠ [] := by
  refine ⟨(env.strErr env.termErr ++ str " (url: " ++ buf ++ str ")").take 511,
    by simp [mkError, ht, hm], ?_⟩
  intro hnil
  rw [List.take_eq_nil_iff] at hnil
  rcases hnil with h511 | hl
  · exact absurd h511 (by decide)
  · have h2 := (List.append_eq_nil.mp hl).2
    exact absurd h2 (by decide)

/-- C4 (amended): a terminal-transfer failure with a successful 512-byte
allocation yields error value 1 plus a non-empty descriptive error string;
a transport-init failure yields error value 1 with no error string set. -/
theorem exec_error_reporting (env : CurlEnv) (req : WebhdfsReq) (ty : ReqType) :
    (env.initOk = false →
      (webhdfs_req_exec env req ty).ret = 1 ∧
      (webhdfs_req_exec env req ty).error = none) ∧
    (env.initOk = true → env.termErr ≠ 0 → env.mallocOk = true →
      (webhdfs_req_exec env req ty).ret = 1 ∧
      ∃ e, (webhdfs_req_exec env req ty).error = some e ∧ e ≠ []) := by
  constructor
  · intro h
    simp [webhdfs_req_exec, h]
  · intro h ht hm
    have he : (webhdfs_req_exec env req ty).error =
        mkError env env.termChunks.flatten := by
      cases hu : req.upload with
      | none =>
          simp [webhdfs_req_exec, h, hu, execNoUpload, runWrites_buffer]
      | some f =>
          simp [webhdfs_req_exec, h, hu, execUpload, runWrites_buffer]
    have hr : (webhdfs_req_exec env req ty).ret = 1 := by
      cases hu : req.upload with
      | none => simp [webhdfs_req_exec, h, hu, execNoUpload, ht]
      | some f => simp [webhdfs_req_exec, h, hu, execUpload, ht]
    rw [he]
    exact ⟨hr, mkError_some_ne_nil env env.termChunks.flatten ht hm⟩

/-- C4 witness: the failing-init engine (silent) and the
terminal-failure engine (descriptive string) on concrete requests. -/
theorem exec_error_reporting_witness :
    ((webhdfs_req_exec envInitFail reqGetFix .get).ret = 1 ∧
      (webhdfs_req_exec envInitFail reqGetFix .get).error = none) ∧
    ((webhdfs_req_exec envTermFail reqGetFix .get).ret = 1 ∧
      ∃ e, (webhdfs_req_exec envTermFail reqGetFix .get).error = some e ∧ e ≠ []) :=
  ⟨(exec_error_reporting envInitFail reqGetFix .get).1 rfl,
   (exec_error_reporting envTermFail reqGetFix .get).2 rfl (by decide) rfl⟩

/-- C3 (code bug): the terminal-failure error string is formatted from
`req->buffer.blob`, which was cleared before the terminal perform and
reused as the response sink; on a failed PUT upload the produced message is
`connection refused (url: )` — it contains neither the redirect URL being
accessed at failure time nor the original namenode URL. -/
theorem exec_error_lacks_url :
    (webhdfs_req_exec envTermFail reqPutFix .put).ret = 1 ∧
    (webhdfs_req_exec envTermFail reqPutFix .put).error =
      some (str "connection refused (url: )") ∧
    hasSub envTermFail.redirectUrl (str "connection refused (url: )") = false ∧
    hasSub reqPutFix.buffer (str "connection refused (url: )") = false := by
  refine ⟨rfl, rfl, by decide, by decide⟩
